import Mathlib

/-!
Verification of the lifecycle controller in `pkg/cli/start.go`: the
startup/shutdown orchestration of `runStart` (signal handling, the drain
goroutine, and the escalation select), the drain client (`checkNodeRunning`,
`doShutdown`, `runQuit`), and the `started`/`draining` flag protocol guarded
by `serverStatusMu`.

Concurrency is embedded by making the nondeterministic choices explicit:
each select statement is driven by a schedule value saying which branch
fired, and the interleaving of the background startup goroutine with the
drain goroutine is an explicit insertion point. All definitions are
computable so that concrete schedules evaluate by `decide`.
-/

namespace StartGo

/-- The three termination signals `runStart` registers interest in:
`signal.Notify(signalCh, syscall.SIGINT, syscall.SIGTERM, syscall.SIGQUIT)`. -/
inductive Sig
  | sigint
  | sigterm
  | sigquit
deriving DecidableEq, Repr

/-- Unix signal number, used by the Go conversion `int(sig.(syscall.Signal))`. -/
def Sig.num : Sig → Nat
  | .sigint => 2
  | .sigterm => 15
  | .sigquit => 3

/-- The check `sig == os.Interrupt` (`os.Interrupt` is `syscall.SIGINT`). -/
def Sig.isInterrupt : Sig → Bool
  | .sigint => true
  | _ => false

/-- `syscall.Signal.String()` on Linux, as interpolated by the
`received signal` format strings. -/
def Sig.goString : Sig → String
  | .sigint => "interrupt"
  | .sigterm => "terminated"
  | .sigquit => "quit"

/-- `log.Severity` values used in the `cliError` literals of `runStart`. -/
inductive Severity
  | info
  | error
deriving DecidableEq, Repr

/-- The `cliError` struct: an error carrying an explicit process exit code. -/
structure CliError where
  exitCode : Nat
  severity : Severity
  cause : String
deriving DecidableEq, Repr

/-- The `returnErr error` variable of `runStart`: either nil, a `*cliError`,
or a plain error built with `errors.Errorf` / received from `errChan`. -/
inductive RetErr
  | none
  | cli (e : CliError)
  | plain (msg : String)
deriving DecidableEq, Repr

/-- Exit code the process reports for a given `returnErr`: nil exits 0, a
`cliError` exits with its stored code, any other error exits with the CLI
default code 1 (the translation performed by the command main outside this
file). -/
def RetErr.exitCode : RetErr → Nat
  | .none => 0
  | .cli e => e.exitCode
  | .plain _ => 1

/-- `hardShutdownHint` (start.go:760). -/
def hardShutdownHint : String :=
  " - node may take longer to restart & clients may need to wait for leases to expire"

/-- Cause of the `cliError` built on a second signal (start.go:769-774):
`received signal '%s' during shutdown, initiating hard shutdown%s`. -/
def secondSignalCause (s : Sig) : String :=
  "received signal \x27" ++ s.goString ++ "\x27 during shutdown, initiating hard shutdown"
    ++ hardShutdownHint

/-- Message of the error built when the one-minute watchdog fires
(start.go:777). -/
def timeLimitMsg : String :=
  "time limit reached, initiating hard shutdown" ++ hardShutdownHint

/-- `msgDone` of the drained branch (start.go:780). -/
def msgDrainDone : String := "server drained and shutdown completed"

/-- `msgDone` of the early-stop branch (start.go:784). -/
def msgTooEarly : String := "too early to drain; used hard shutdown instead"

/-- The watchdog bound of the drain select, `time.After(time.Minute)`
(start.go:776), in seconds. -/
def drainGracePeriodSeconds : Nat := 60

/-- The tentative exit decision recorded when the first signal arrives
(start.go:705-718): an interrupt keeps a `cliError` with exit code 1 and
cause `interrupted`; any other registered signal leaves `returnErr` nil. -/
def tentativeDecision (s : Sig) : RetErr :=
  if s.isInterrupt then .cli ⟨1, .info, "interrupted"⟩ else .none

/-- Which branch of the first select (start.go:686-739) fired. -/
inductive FirstEvent
  | bgError (msg : String)
  | externalStop
  | signal (s : Sig)
deriving DecidableEq, Repr

/-- Which branch of the shutdown select (start.go:761-787) fired. -/
inductive SecondEvent
  | signal (s : Sig)
  | timeout
  | stopped
  | stopWithoutDrain
deriving DecidableEq, Repr

/-- A schedule for one run of the shutdown orchestration: the branch taken by
each select, and the value of `serverStatusMu.started` observed by the drain
goroutine when it acquires the lock (start.go:720-723). -/
structure RunInput where
  first : FirstEvent
  started : Bool
  second : SecondEvent
deriving DecidableEq, Repr

/-- Schedules realizable by the code: the `stopper.IsStopped` branch needs the
drain goroutine to have called `stopper.Stop` (only on the `started` path),
and the `stopWithoutDrain` channel is closed only on the `!started` path. -/
def RunInput.wf (i : RunInput) : Prop :=
  (i.second = .stopped → i.started = true) ∧
  (i.second = .stopWithoutDrain → i.started = false)

instance (i : RunInput) : Decidable i.wf := by
  unfold RunInput.wf; infer_instance

/-- Observable outcome of one run of the shutdown orchestration. -/
structure Outcome where
  retErr : RetErr
  /-- number of calls to `s.Drain(server.GracefulDrainModes)` issued. -/
  drainRequests : Nat
  /-- the drain goroutine closed `stopWithoutDrain` instead of draining. -/
  earlyStopPath : Bool
  /-- `msgDone` printed by the drained / early-stop select branches. -/
  shutdownMsg : Option String
deriving DecidableEq, Repr

/-- The drain goroutine spawned on the first signal (start.go:719-738): under
`serverStatusMu` it sets `draining` and reads `started`; if the server has
not started it closes `stopWithoutDrain` and returns, otherwise it issues the
single `s.Drain` call and then `stopper.Stop`. Returns
(earlyStopPath, drainRequests). -/
def drainGoroutine (started : Bool) : Bool × Nat :=
  if started then (false, 1) else (true, 0)

/-- The signal/shutdown orchestration of `runStart` (start.go:686-789), as a
function of the schedule. The first select either returns directly (`errChan`
or external stop) or records the tentative decision for the signal and spawns
the drain goroutine; the second select settles the final decision. Only these
two receives from `signalCh` exist, so any further signals are never
consumed. -/
def runStart (i : RunInput) : Outcome :=
  match i.first with
  | .bgError m =>
      { retErr := .plain m, drainRequests := 0, earlyStopPath := false, shutdownMsg := none }
  | .externalStop =>
      { retErr := .none, drainRequests := 0, earlyStopPath := false, shutdownMsg := none }
  | .signal s =>
      let tentative := tentativeDecision s
      let g := drainGoroutine i.started
      match i.second with
      | .signal s2 =>
          { retErr := .cli ⟨128 + s2.num, .error, secondSignalCause s2⟩,
            drainRequests := g.2, earlyStopPath := g.1, shutdownMsg := none }
      | .timeout =>
          { retErr := .plain timeLimitMsg,
            drainRequests := g.2, earlyStopPath := g.1, shutdownMsg := none }
      | .stopped =>
          { retErr := tentative,
            drainRequests := g.2, earlyStopPath := g.1, shutdownMsg := some msgDrainDone }
      | .stopWithoutDrain =>
          { retErr := tentative,
            drainRequests := g.2, earlyStopPath := g.1, shutdownMsg := some msgTooEarly }

/-- An error observed on a gRPC drain call or its response stream, abstracted
by the two classifications the client code consults: whether
`grpcutil.IsClosedConnection` holds of it and whether it is `io.EOF`. -/
structure GErr where
  isClosedConn : Bool
  isEOF : Bool
  msg : String
deriving DecidableEq, Repr

/-- Behaviour of one `c.Drain(ctx, req)` RPC: either the call itself returns
an error, or it returns a stream that yields `n` responses and then a
terminal error (`io.EOF` on a clean end of stream). -/
inductive CallResult
  | callErr (e : GErr)
  | stream (n : Nat) (term : GErr)
deriving DecidableEq, Repr

/-- A `serverpb.DrainRequest`: the `On` drain modes and the `Shutdown` flag. -/
structure DrainRequest where
  On : List Int
  Shutdown : Bool
deriving DecidableEq, Repr

/-- The no-op probe request sent by `checkNodeRunning` (start.go:973-976):
`On: nil, Shutdown: false`. -/
def probeRequest : DrainRequest := ⟨[], false⟩

/-- `checkNodeRunning` (start.go:971-991): performs the no-op Drain RPC; a
call-level failure is wrapped and returned, while every error coming from the
response stream afterwards is only logged (when not `io.EOF`) and ignored. -/
def checkNodeRunning (b : CallResult) : Option String :=
  match b with
  | .callErr e =>
      some ("Failed to connect to the node: error sending drain request: " ++ e.msg)
  | .stream _ _ => Option.none

/-- Result of `doShutdown`: nil, a plain error, or the distinguished
`errTryHardShutdown` wrapper telling `runQuit` to fall back to a hard
shutdown. -/
inductive ShutdownResult
  | ok
  | err (msg : String)
  | errTryHardShutdown (e : GErr)
deriving DecidableEq, Repr

/-- What one `doShutdown` run did: the Drain requests it issued, in order,
and its result. -/
structure ShutdownTrace where
  requests : List DrainRequest
  result : ShutdownResult
deriving DecidableEq, Repr

/-- `doShutdown` (start.go:997-1032) over the behaviours of its two RPCs.
It first runs `checkNodeRunning` (issuing the probe request) and gives up on
its failure; it then issues the real request `On: onModes, Shutdown: true`.
A call error that is a closed connection counts as success, any other call
error is wrapped; a stream that terminates with a closed-connection error is
success, and any other terminal stream error becomes `errTryHardShutdown`. -/
def doShutdown (probe real : CallResult) (onModes : List Int) : ShutdownTrace :=
  match checkNodeRunning probe with
  | some m => { requests := [probeRequest], result := .err m }
  | Option.none =>
      let req : DrainRequest := ⟨onModes, true⟩
      match real with
      | .callErr e =>
          { requests := [probeRequest, req],
            result := if e.isClosedConn then .ok
                      else .err ("Error sending drain request: " ++ e.msg) }
      | .stream _ term =>
          { requests := [probeRequest, req],
            result := if term.isClosedConn then .ok else .errTryHardShutdown term }

/-- The client-side bound on the graceful attempt in `runQuit`,
`time.After(time.Minute)` (start.go:1078), in seconds. -/
def quitTimeoutSeconds : Nat := 60

/-- Outcome of the race in `runQuit` between the goroutine running the
graceful `doShutdown` and the one-minute timer (start.go:1068-1080). -/
inductive QuitFirstOutcome
  | result (r : ShutdownResult)
  | timedOut
deriving DecidableEq, Repr

/-- What one `runQuit` run did after connecting: whether the fall-back hard
shutdown was attempted, the mode list it used, all Drain requests issued, and
the final error returned to the operator (`Option.none` is success). -/
structure QuitTrace where
  hardAttempted : Bool
  hardModes : Option (List Int)
  requests : List DrainRequest
  final : Option String
deriving DecidableEq, Repr

/-- `errors.Wrap(err, "hard shutdown failed")` applied to the result of the
unconditional `doShutdown` call (start.go:1083); wrapping nil yields nil. -/
def wrapHardShutdown : ShutdownResult → Option String
  | .ok => Option.none
  | .err m => some ("hard shutdown failed: " ++ m)
  | .errTryHardShutdown e => some ("hard shutdown failed: " ++ e.msg)

/-- The shutdown phase of `runQuit` (start.go:1064-1083): the graceful
`doShutdown (onModes)` result is raced against a one-minute timer. A nil
result or a plain error is returned as-is; `errTryHardShutdown` and a timer
expiry both proceed to an unconditional `doShutdown` with nil modes, whose
failure is final. The graceful attempt's requests are those of
`gracefulTrace`; when the timer fires first the code does not wait for them,
but the graceful goroutine has at least issued its probe. -/
def runQuit (first : QuitFirstOutcome) (gracefulTrace : ShutdownTrace)
    (hardProbe hardReal : CallResult) : QuitTrace :=
  match first with
  | .result .ok =>
      { hardAttempted := false, hardModes := Option.none,
        requests := gracefulTrace.requests, final := Option.none }
  | .result (.err m) =>
      { hardAttempted := false, hardModes := Option.none,
        requests := gracefulTrace.requests, final := some m }
  | .result (.errTryHardShutdown _) =>
      let hard := doShutdown hardProbe hardReal []
      { hardAttempted := true, hardModes := some [],
        requests := gracefulTrace.requests ++ hard.requests,
        final := wrapHardShutdown hard.result }
  | .timedOut =>
      let hard := doShutdown hardProbe hardReal []
      { hardAttempted := true, hardModes := some [],
        requests := gracefulTrace.requests ++ hard.requests,
        final := wrapHardShutdown hard.result }

/-! ### The `started`/`draining` flag protocol

The background startup goroutine (start.go:562-674) and the drain goroutine
(start.go:719-738) interact only through the two booleans guarded by
`serverStatusMu`. The background goroutine performs, in order: the
re-read of `draining` after `server.NewServer` (start.go:587-592, returning
early when it is set), the `s.Start(ctx)` call, and the assignment
`started = true` (start.go:607-609). The drain goroutine's critical section
sets `draining` and reads `started` in one lock acquisition. We model an
interleaving by the position at which that critical section executes
relative to the three background steps. -/

/-- The flag pair guarded by `serverStatusMu` (start.go:552-559). -/
structure Flags where
  started : Bool
  draining : Bool
deriving DecidableEq, Repr

/-- The three ordered steps of the background startup goroutine that touch or
bracket the lifecycle flags. -/
inductive BgStep
  | checkDraining
  | startServer
  | setStarted
deriving DecidableEq, Repr

/-- The background goroutine's step sequence after `server.NewServer`. -/
def bgProgram : List BgStep := [.checkDraining, .startServer, .setStarted]

/-- One atomic step of the interleaved execution. -/
inductive Step
  | bg (b : BgStep)
  | drain
deriving DecidableEq, Repr

/-- State of the interleaved execution, with the history observations the
claims are about. -/
structure RaceState where
  flags : Flags
  /-- the background goroutine returned at the `draining` re-read. -/
  bgReturned : Bool
  /-- `s.Start(ctx)` was called. -/
  startCalled : Bool
  /-- the assignment `started = true` executed while `draining` was already true. -/
  startedSetAfterDraining : Bool
  /-- the drain goroutine issued the `s.Drain` request. -/
  drainIssued : Bool
deriving DecidableEq, Repr

/-- Initial state: both flags false, nothing happened yet. -/
def initRace : RaceState :=
  { flags := ⟨false, false⟩, bgReturned := false, startCalled := false,
    startedSetAfterDraining := false, drainIssued := false }

/-- Effect of one atomic step. The background steps after the `draining`
re-read run only if the goroutine did not return there; the drain step sets
`draining` and reads `started` in the same critical section, issuing the
drain request exactly when `started` is already true. -/
def doStep (s : RaceState) : Step → RaceState
  | .bg .checkDraining =>
      if s.flags.draining then { s with bgReturned := true } else s
  | .bg .startServer =>
      if s.bgReturned then s else { s with startCalled := true }
  | .bg .setStarted =>
      if s.bgReturned then s
      else
        { s with flags := ⟨true, s.flags.draining⟩,
                 startedSetAfterDraining := s.flags.draining }
  | .drain =>
      let f : Flags := ⟨s.flags.started, true⟩
      { s with flags := f, drainIssued := f.started }

/-- The interleaving in which the drain goroutine's critical section runs
after the first `p` background steps. -/
def schedule (p : Nat) : List Step :=
  ((bgProgram.take p).map .bg) ++ [.drain] ++ ((bgProgram.drop p).map .bg)

/-- Run the interleaved execution for insertion point `p`. -/
def runRace (p : Nat) : RaceState :=
  (schedule p).foldl doStep initRace

/-! ### Helper lemmas -/

/-- Any insertion point at or past the end of the background program gives the
same interleaving as insertion point 3. -/
theorem runRace_ge_three (n : Nat) : runRace (n + 3) = runRace 3 := by
  unfold runRace schedule bgProgram
  simp

/-! ### Claim theorems -/

/-- Claim C1: for every run of the orchestrator, at most one drain request is
issued over its whole lifetime, regardless of how many termination signals
arrive; replacing whatever the drain select saw by a further signal never
changes the number of drain requests issued. -/
theorem runStart_at_most_one_drain_request (i : RunInput) :
    (runStart i).drainRequests ≤ 1 ∧
    (∀ s2 : Sig,
      (runStart { i with second := .signal s2 }).drainRequests
        = (runStart i).drainRequests) := by
  obtain ⟨f, st, sec⟩ := i
  refine ⟨?_, ?_⟩
  · cases f <;> cases st <;> cases sec <;>
      simp [runStart, drainGoroutine]
  · intro s2
    cases f <;> cases st <;> cases sec <;>
      simp [runStart, drainGoroutine]

/-- Claim C2: when the drain goroutine observes that the background task has
not set `started`, no drain request is ever sent: the goroutine takes the
early hard-stop path, and when the select then reports it, the recorded cause
is the early-shutdown message. -/
theorem runStart_no_drain_before_running (s : Sig) (i : RunInput)
    (hf : i.first = .signal s) (hs : i.started = false) :
    (runStart i).drainRequests = 0 ∧
    (runStart i).earlyStopPath = true ∧
    (i.second = .stopWithoutDrain →
      (runStart i).shutdownMsg = some msgTooEarly ∧
      msgTooEarly = "too early to drain; used hard shutdown instead") := by
  obtain ⟨f, st, sec⟩ := i
  cases hf
  cases hs
  cases sec <;> simp [runStart, drainGoroutine, msgTooEarly]

/-- Witness for C2 at a concrete schedule: a SIGTERM before the server
started, with the early-stop channel firing. -/
theorem runStart_no_drain_before_running_witness :
    (runStart ⟨.signal .sigterm, false, .stopWithoutDrain⟩).drainRequests = 0 ∧
    (runStart ⟨.signal .sigterm, false, .stopWithoutDrain⟩).earlyStopPath = true ∧
    ((⟨.signal .sigterm, false, .stopWithoutDrain⟩ : RunInput).second = .stopWithoutDrain →
      (runStart ⟨.signal .sigterm, false, .stopWithoutDrain⟩).shutdownMsg = some msgTooEarly ∧
      msgTooEarly = "too early to drain; used hard shutdown instead") :=
  runStart_no_drain_before_running .sigterm _ rfl rfl

/-- Claim C3: a second disruptive signal while the drain is in progress
overrides the exit decision to code 128 plus the signal number with the
hard-shutdown cause, for every combination of first and second signal, and
the drained-completion message is never reported (the select stops waiting
for the drain). -/
theorem runStart_second_signal_forces_hard_shutdown (s s2 : Sig) (i : RunInput)
    (hf : i.first = .signal s) (hst : i.started = true) (h2 : i.second = .signal s2) :
    (runStart i).retErr = .cli ⟨128 + s2.num, .error, secondSignalCause s2⟩ ∧
    (runStart i).retErr.exitCode = 128 + s2.num ∧
    (runStart i).shutdownMsg = Option.none := by
  obtain ⟨f, st, sec⟩ := i
  cases hf
  cases hst
  cases h2
  simp [runStart, drainGoroutine, RetErr.exitCode]

/-- Witness for C3: first signal SIGTERM, second signal SIGQUIT (number 3),
yielding exit code 131. -/
theorem runStart_second_signal_forces_hard_shutdown_witness :
    (runStart ⟨.signal .sigterm, true, .signal .sigquit⟩).retErr
        = .cli ⟨128 + Sig.num .sigquit, .error, secondSignalCause .sigquit⟩ ∧
    (runStart ⟨.signal .sigterm, true, .signal .sigquit⟩).retErr.exitCode
        = 128 + Sig.num .sigquit ∧
    (runStart ⟨.signal .sigterm, true, .signal .sigquit⟩).shutdownMsg = Option.none :=
  runStart_second_signal_forces_hard_shutdown .sigterm .sigquit _ rfl rfl rfl

/-- Claim C4: when the drain completes gracefully (the stopper reports
stopped before the watchdog and before any further signal), the tentative
decision recorded at signal receipt is kept: an interrupt yields exit code 1
with cause `interrupted`, and a terminate-class signal leaves the nil
(success, exit code 0) decision. -/
theorem runStart_clean_drain_keeps_tentative_decision (s : Sig) (i : RunInput)
    (hf : i.first = .signal s) (hst : i.started = true) (h2 : i.second = .stopped) :
    (runStart i).retErr = tentativeDecision s ∧
    (s = .sigint →
      (runStart i).retErr = .cli ⟨1, .info, "interrupted"⟩ ∧
      (runStart i).retErr.exitCode = 1) ∧
    (s ≠ .sigint →
      (runStart i).retErr = .none ∧ (runStart i).retErr.exitCode = 0) := by
  obtain ⟨f, st, sec⟩ := i
  cases hf
  cases hst
  cases h2
  refine ⟨by simp [runStart, drainGoroutine], ?_, ?_⟩
  · rintro rfl
    simp [runStart, drainGoroutine, tentativeDecision, Sig.isInterrupt, RetErr.exitCode]
  · intro hne
    cases s <;>
      simp_all [runStart, drainGoroutine, tentativeDecision, Sig.isInterrupt, RetErr.exitCode]

/-- Witness for C4: clean drain after SIGINT keeps exit code 1, and after
SIGTERM keeps the success decision. -/
theorem runStart_clean_drain_keeps_tentative_decision_witness :
    ((runStart ⟨.signal .sigint, true, .stopped⟩).retErr = tentativeDecision .sigint ∧
      (Sig.sigint = .sigint →
        (runStart ⟨.signal .sigint, true, .stopped⟩).retErr = .cli ⟨1, .info, "interrupted"⟩ ∧
        (runStart ⟨.signal .sigint, true, .stopped⟩).retErr.exitCode = 1) ∧
      (Sig.sigint ≠ .sigint →
        (runStart ⟨.signal .sigint, true, .stopped⟩).retErr = .none ∧
        (runStart ⟨.signal .sigint, true, .stopped⟩).retErr.exitCode = 0)) ∧
    ((runStart ⟨.signal .sigterm, true, .stopped⟩).retErr = tentativeDecision .sigterm ∧
      (Sig.sigterm = .sigint →
        (runStart ⟨.signal .sigterm, true, .stopped⟩).retErr = .cli ⟨1, .info, "interrupted"⟩ ∧
        (runStart ⟨.signal .sigterm, true, .stopped⟩).retErr.exitCode = 1) ∧
      (Sig.sigterm ≠ .sigint →
        (runStart ⟨.signal .sigterm, true, .stopped⟩).retErr = .none ∧
        (runStart ⟨.signal .sigterm, true, .stopped⟩).retErr.exitCode = 0)) :=
  ⟨runStart_clean_drain_keeps_tentative_decision .sigint _ rfl rfl rfl,
   runStart_clean_drain_keeps_tentative_decision .sigterm _ rfl rfl rfl⟩

/-- Claim C5: the drain select runs under a fixed one-minute watchdog; when
the watchdog fires first the decision is overridden to the generic timeout
failure with the time-limit cause, and when the stopper reports fully
stopped first the tentative decision is kept and the drained-completed
message is reported. -/
theorem runStart_drain_watchdog (s : Sig) (i : RunInput)
    (hf : i.first = .signal s) (hst : i.started = true) :
    drainGracePeriodSeconds = 60 ∧
    (i.second = .timeout →
      (runStart i).retErr = .plain timeLimitMsg ∧
      timeLimitMsg = "time limit reached, initiating hard shutdown" ++ hardShutdownHint) ∧
    (i.second = .stopped →
      (runStart i).retErr = tentativeDecision s ∧
      (runStart i).shutdownMsg = some msgDrainDone ∧
      msgDrainDone = "server drained and shutdown completed") := by
  obtain ⟨f, st, sec⟩ := i
  cases hf
  cases hst
  cases sec <;>
    simp [runStart, drainGoroutine, drainGracePeriodSeconds, timeLimitMsg, msgDrainDone]

/-- Witness for C5 at the timeout schedule after SIGTERM. -/
theorem runStart_drain_watchdog_witness :
    drainGracePeriodSeconds = 60 ∧
    ((⟨.signal .sigterm, true, .timeout⟩ : RunInput).second = .timeout →
      (runStart ⟨.signal .sigterm, true, .timeout⟩).retErr = .plain timeLimitMsg ∧
      timeLimitMsg = "time limit reached, initiating hard shutdown" ++ hardShutdownHint) ∧
    ((⟨.signal .sigterm, true, .timeout⟩ : RunInput).second = .stopped →
      (runStart ⟨.signal .sigterm, true, .timeout⟩).retErr = tentativeDecision .sigterm ∧
      (runStart ⟨.signal .sigterm, true, .timeout⟩).shutdownMsg = some msgDrainDone ∧
      msgDrainDone = "server drained and shutdown completed") :=
  runStart_drain_watchdog .sigterm _ rfl rfl

/-- Claim C6: when the probe succeeded, a real drain response stream that
ends via connection closure is returned by `doShutdown` as success, never as
the ambiguous failure, while any other terminal stream error is returned as
the distinguished `errTryHardShutdown` value rather than a plain error. -/
theorem doShutdown_stream_end_classification (probe : CallResult) (np n : Nat)
    (tp term : GErr) (modes : List Int) (hp : probe = .stream np tp) :
    (term.isClosedConn = true →
      (doShutdown probe (.stream n term) modes).result = .ok) ∧
    (term.isClosedConn = false →
      (doShutdown probe (.stream n term) modes).result = .errTryHardShutdown term) := by
  cases hp
  refine ⟨fun h => ?_, fun h => ?_⟩ <;>
    simp [doShutdown, checkNodeRunning, h]

/-- Witness for C6: a closed-connection stream end is success, a plain stream
error is the try-hard-shutdown value. -/
theorem doShutdown_stream_end_classification_witness :
    ((GErr.mk true false "use of closed network connection").isClosedConn = true →
      (doShutdown (.stream 1 ⟨false, true, "EOF"⟩)
        (.stream 0 ⟨true, false, "use of closed network connection"⟩) [1, 2]).result = .ok) ∧
    ((GErr.mk true false "use of closed network connection").isClosedConn = false →
      (doShutdown (.stream 1 ⟨false, true, "EOF"⟩)
        (.stream 0 ⟨true, false, "use of closed network connection"⟩) [1, 2]).result
          = .errTryHardShutdown ⟨true, false, "use of closed network connection"⟩) :=
  doShutdown_stream_end_classification _ 1 0 _ _ _ rfl

/-- Claim C7: every `doShutdown` run issues the probe request (empty modes,
no shutdown) first, and when the probe RPC fails at the connection level it
returns the wrapped connection error immediately, with the real drain request
never sent. -/
theorem doShutdown_probe_first (probe real : CallResult) (modes : List Int) :
    (doShutdown probe real modes).requests.head? = some probeRequest ∧
    probeRequest = ⟨[], false⟩ ∧
    (∀ e : GErr, probe = .callErr e →
      (doShutdown probe real modes).requests = [probeRequest] ∧
      (doShutdown probe real modes).result =
        .err ("Failed to connect to the node: error sending drain request: " ++ e.msg)) := by
  refine ⟨?_, rfl, ?_⟩
  · cases probe <;> cases real <;> simp [doShutdown, checkNodeRunning]
  · rintro e rfl
    simp [doShutdown, checkNodeRunning]

/-- Witness for C7: a refused probe yields only the probe request and the
connection error. -/
theorem doShutdown_probe_first_witness :
    (doShutdown (.callErr ⟨false, false, "connection refused"⟩)
        (.stream 0 ⟨true, false, "closed"⟩) [1]).requests = [probeRequest] ∧
    (doShutdown (.callErr ⟨false, false, "connection refused"⟩)
        (.stream 0 ⟨true, false, "closed"⟩) [1]).result =
      .err ("Failed to connect to the node: error sending drain request: "
        ++ (GErr.mk false false "connection refused").msg) :=
  (doShutdown_probe_first (.callErr ⟨false, false, "connection refused"⟩)
      (.stream 0 ⟨true, false, "closed"⟩) [1]).2.2
    ⟨false, false, "connection refused"⟩ rfl

/-- Claim C8: the graceful quit attempt is bounded by a fixed one-minute
timeout; on expiry, and on an ambiguous `errTryHardShutdown` result, `runQuit`
proceeds with an unconditional mode-less shutdown request, and the failure of
that unconditional request is final: it is the error reported to the
operator. -/
theorem runQuit_falls_back_to_hard_shutdown (first : QuitFirstOutcome)
    (g : ShutdownTrace) (hp hr : CallResult)
    (h : first = .timedOut ∨ ∃ e : GErr, first = .result (.errTryHardShutdown e)) :
    quitTimeoutSeconds = 60 ∧
    (runQuit first g hp hr).hardAttempted = true ∧
    (runQuit first g hp hr).hardModes = some [] ∧
    (runQuit first g hp hr).final = wrapHardShutdown (doShutdown hp hr []).result := by
  rcases h with rfl | ⟨e, rfl⟩ <;>
    simp [runQuit, quitTimeoutSeconds]

/-- Witness for C8: a timed-out graceful attempt falls back to the hard
shutdown, whose connection failure is reported. -/
theorem runQuit_falls_back_to_hard_shutdown_witness :
    quitTimeoutSeconds = 60 ∧
    (runQuit .timedOut ⟨[probeRequest], .ok⟩ (.stream 0 ⟨false, true, "EOF"⟩)
        (.callErr ⟨false, false, "boom"⟩)).hardAttempted = true ∧
    (runQuit .timedOut ⟨[probeRequest], .ok⟩ (.stream 0 ⟨false, true, "EOF"⟩)
        (.callErr ⟨false, false, "boom"⟩)).hardModes = some [] ∧
    (runQuit .timedOut ⟨[probeRequest], .ok⟩ (.stream 0 ⟨false, true, "EOF"⟩)
        (.callErr ⟨false, false, "boom"⟩)).final =
      wrapHardShutdown (doShutdown (.stream 0 ⟨false, true, "EOF"⟩)
        (.callErr ⟨false, false, "boom"⟩) []).result :=
  runQuit_falls_back_to_hard_shutdown .timedOut _ _ _ (Or.inl rfl)

/-- Claim C9 counterexample: in the interleaving where the drain goroutine's
critical section runs between the background task's `draining` re-read and
its `s.Start` call, the `started` flag IS set after the `draining` flag (the
code's accepted race, start.go:725-727); the claimed ordering is violated,
though even then no drain is issued. -/
theorem runRace_started_after_draining_cex :
    (runRace 1).startedSetAfterDraining = true ∧
    (runRace 1).drainIssued = false := by
  decide

/-- Claim C9 (amended): if `draining` is already set when the background task
re-reads it after constructing the server, the task returns without calling
`s.Start` and the `started` flag is never set; in every other interleaving,
whenever `started` is set after `draining`, no drain request is issued — the
check prevents starting after a drain only when draining precedes the
re-read, not in general. -/
theorem runRace_draining_before_check (p : Nat) (hp : p = 0) :
    ((runRace p).bgReturned = true ∧
      (runRace p).startCalled = false ∧
      (runRace p).flags.started = false) ∧
    (∀ q : Nat, (runRace q).startedSetAfterDraining = true →
      (runRace q).drainIssued = false) := by
  cases hp
  refine ⟨by decide, ?_⟩
  intro q
  match q with
  | 0 => decide
  | 1 => decide
  | 2 => decide
  | (n + 3) => rw [runRace_ge_three]; decide

/-- Witness for C9's amended theorem at insertion point 0. -/
theorem runRace_draining_before_check_witness :
    (((runRace 0).bgReturned = true ∧
      (runRace 0).startCalled = false ∧
      (runRace 0).flags.started = false) ∧
    (∀ q : Nat, (runRace q).startedSetAfterDraining = true →
      (runRace q).drainIssued = false)) :=
  runRace_draining_before_check 0 rfl

/-- Claim C10: `checkNodeRunning` returns nil whenever the no-op Drain RPC
call itself is accepted, whatever error — EOF or not — later terminates the
response stream; only a call-level connection failure produces an error. -/
theorem checkNodeRunning_ignores_stream_errors :
    (∀ (n : Nat) (term : GErr), checkNodeRunning (.stream n term) = Option.none) ∧
    (∀ e : GErr, checkNodeRunning (.callErr e) =
      some ("Failed to connect to the node: error sending drain request: " ++ e.msg)) := by
  exact ⟨fun _ _ => rfl, fun _ => rfl⟩

end StartGo
